import Mathlib

/-!
Shallow embedding of vfkit's device configuration model (pkg/config/virtio.go).

Go strings are modelled as Lean `String`, Go slices as `List`, fallible Go
functions returning `(T, error)` as `Except VErr T`.  The `*os.File` socket
handle of `VirtioNet` is modelled by its file-descriptor number
(`Option Nat`, `none` standing for Go's `nil`), and `net.HardwareAddr` by its
byte list.  Field mutation in Go becomes functional record update threaded
through the option loop.
-/

set_option autoImplicit false
set_option maxHeartbeats 1000000

/-- One `key=value` command line option, as in virtio.go's `option` struct. -/
structure option where
  key : String
  value : String
  deriving DecidableEq

/-- Splits a list of characters at the first `=`, returning the part before it
and, when an `=` is present, the part after it.  This is Go's
`strings.SplitN(str, "=", 2)` at the character level. -/
def splitFirstEq : List Char → List Char × Option (List Char)
  | [] => ([], none)
  | c :: cs =>
    if c = '=' then ([], some cs)
    else
      let r := splitFirstEq cs
      (c :: r.1, r.2)

/-- virtio.go `strToOption`: split on the first `=` only; the value is empty
when the segment contains no `=`. -/
def strToOption (str : String) : option :=
  match splitFirstEq str.data with
  | (k, none) => { key := String.mk k, value := "" }
  | (k, some v) => { key := String.mk k, value := String.mk v }

/-- virtio.go `strvToOptions`: empty segments are skipped, the rest are parsed
in order by `strToOption`. -/
def strvToOptions : List String → List option
  | [] => []
  | s :: rest =>
    if s.length = 0 then strvToOptions rest
    else strToOption s :: strvToOptions rest

/-- Helper for `splitComma`, accumulating the current segment in reverse. -/
def splitCommaAux : List Char → List Char → List String
  | [], acc => [String.mk acc.reverse]
  | c :: cs, acc =>
    if c = ',' then String.mk acc.reverse :: splitCommaAux cs []
    else splitCommaAux cs (c :: acc)

/-- Go's `strings.Split(s, ",")`: splits around every comma, always producing
at least one (possibly empty) segment. -/
def splitComma (s : String) : List String :=
  splitCommaAux s.data []

/-- The errors produced by the device configuration model, one constructor per
distinct `fmt.Errorf` site in virtio.go (plus the two error families coming
from the standard library calls `strconv.Atoi` and `net.ParseMAC`). -/
inductive VErr where
  /-- "empty option list in command line argument" -/
  | emptySpec
  /-- "unknown device type: %s" -/
  | unknownDeviceType (tag : String)
  /-- "Unknown option for %s devices: %s" -/
  | unknownOption (device : String) (key : String)
  /-- "Unknown options for virtio-rng devices: %s" -/
  | unknownOptions (device : String) (opts : List option)
  /-- "Unexpected value for virtio-net 'nat' option: %s" -/
  | unexpectedValue (device : String) (key : String) (value : String)
  /-- error returned by `strconv.Atoi` on a non-integer value -/
  | invalidNumber (value : String)
  /-- error returned by `net.ParseMAC` on a malformed MAC address -/
  | invalidMac (value : String)
  /-- "'nat' and 'fd' cannot be set at the same time" -/
  | natFdConflict
  /-- "One of 'nat' or 'fd' must be set" -/
  | natFdMissing
  /-- "virtio-serial needs the path to the log file" -/
  | missingLogFile
  /-- "virtio-fs needs the path to the directory to share" -/
  | missingSharedDir
  /-- "virtio-vsock needs both a port and a socket URL" -/
  | missingPortOrURL
  /-- "%s devices need the path to a disk image" -/
  | missingImagePath (device : String)
  /-- "Unexpected storage config commandline" -/
  | unexpectedStorageCmdline
  deriving DecidableEq

/-- Decimal value of a digit string (used after an all-digits check). -/
def digitsVal (ds : List Char) : Nat :=
  ds.foldl (fun acc c => acc * 10 + (c.toNat - 48)) 0

/-- Go's `strconv.Atoi`: optional sign, then decimal digits only, within the
64-bit `int` range; `none` models the error return. -/
def atoiGo (s : String) : Option Int :=
  match s.data with
  | [] => none
  | c :: rest =>
    let ds : List Char := if c = '-' ∨ c = '+' then rest else c :: rest
    if ds.length = 0 then none
    else if ds.all Char.isDigit then
      let n : Int := Int.ofNat (digitsVal ds)
      let v : Int := if c = '-' then -n else n
      if v < -(2 ^ 63) ∨ 2 ^ 63 ≤ v then none else some v
    else none

/-- Go's `uint(n)` conversion of a 64-bit `int`: two's-complement wraparound. -/
def uintOfInt (n : Int) : Nat :=
  (n % (2 ^ 64 : Int)).toNat

/-- Go's `os.NewFile(uintptr(fd), ...)`: yields a file wrapping `fd` when
`fd ≥ 0` and `nil` (here `none`) when `fd` is negative. -/
def osNewFile (n : Int) : Option Nat :=
  if n < 0 then none else some n.toNat

/-- Hexadecimal value of one character, as accepted by Go's `xtoi`. -/
def hexDigitVal (c : Char) : Option Nat :=
  if c.isDigit then some (c.toNat - 48)
  else if 'a' ≤ c ∧ c ≤ 'f' then some (c.toNat - 87)
  else if 'A' ≤ c ∧ c ≤ 'F' then some (c.toNat - 55)
  else none

/-- Groups of two hex digits separated by `e` (Go `net.ParseMAC`, `:`/`-`
branch): the byte loop with its per-group separator check. -/
def parseMacGroups : List Char → Char → Option (List Nat)
  | [c1, c2], _ =>
    match hexDigitVal c1, hexDigitVal c2 with
    | some h1, some h2 => some [h1 * 16 + h2]
    | _, _ => none
  | c1 :: c2 :: sep :: rest, e =>
    if sep = e then
      match hexDigitVal c1, hexDigitVal c2, parseMacGroups rest e with
      | some h1, some h2, some tl => some ((h1 * 16 + h2) :: tl)
      | _, _, _ => none
    else none
  | _, _ => none

/-- Groups of four hex digits separated by `.` (Go `net.ParseMAC`, dotted
branch), each group yielding two bytes. -/
def parseMacDotGroups : List Char → Option (List Nat)
  | [c1, c2, c3, c4] =>
    match hexDigitVal c1, hexDigitVal c2, hexDigitVal c3, hexDigitVal c4 with
    | some h1, some h2, some h3, some h4 => some [h1 * 16 + h2, h3 * 16 + h4]
    | _, _, _, _ => none
  | c1 :: c2 :: c3 :: c4 :: sep :: rest =>
    if sep = '.' then
      match hexDigitVal c1, hexDigitVal c2, hexDigitVal c3, hexDigitVal c4,
          parseMacDotGroups rest with
      | some h1, some h2, some h3, some h4, some tl =>
        some ((h1 * 16 + h2) :: (h3 * 16 + h4) :: tl)
      | _, _, _, _, _ => none
    else none
  | _ => none

/-- Go's `net.ParseMAC`: length and shape checks, then the matching group
parser; `none` models the `invalid MAC address` error. -/
def parseMAC (s : String) : Option (List Nat) :=
  let cs := s.data
  let l := cs.length
  if l < 14 then none
  else if cs.getD 2 ' ' = ':' ∨ cs.getD 2 ' ' = '-' then
    if (l + 1) % 3 ≠ 0 then none
    else if ¬((l + 1) / 3 = 6 ∨ (l + 1) / 3 = 8 ∨ (l + 1) / 3 = 20) then none
    else parseMacGroups cs (cs.getD 2 ' ')
  else if cs.getD 4 ' ' = '.' then
    if (l + 1) % 5 ≠ 0 then none
    else if ¬(2 * (l + 1) / 5 = 6 ∨ 2 * (l + 1) / 5 = 8 ∨ 2 * (l + 1) / 5 = 20) then none
    else parseMacDotGroups cs
  else none

/-- One lowercase hexadecimal digit character. -/
def hexChar (n : Nat) : Char :=
  if n < 10 then Char.ofNat (48 + n) else Char.ofNat (87 + n)

/-- Go's `net.HardwareAddr.String()`: lowercase hex byte pairs joined by `:`. -/
def macString (mac : List Nat) : String :=
  String.intercalate ":" (mac.map (fun b => String.mk [hexChar (b / 16), hexChar (b % 16)]))

/-- virtio.go `StorageConfig`: shared sub-model of the disk-backed devices. -/
structure StorageConfig where
  devName : String
  imagePath : String
  readOnly : Bool
  deriving DecidableEq

/-- virtio.go `VirtioBlk`: embedded `StorageConfig` plus a device identifier. -/
structure VirtioBlk where
  storageConfig : StorageConfig
  deviceIdentifier : String
  deriving DecidableEq

/-- virtio.go `VirtioFs`. -/
structure VirtioFs where
  sharedDir : String
  mountTag : String
  deriving DecidableEq

/-- virtio.go `VirtioRng`: no fields. -/
structure VirtioRng where
  deriving DecidableEq

/-- virtio.go `VirtioNet`: the socket is `none` when Go's `Socket` is `nil`,
`some fd` otherwise; the MAC address is its byte list, `[]` when unset. -/
structure VirtioNet where
  nat : Bool
  macAddress : List Nat
  socket : Option Nat
  deriving DecidableEq

/-- virtio.go `VirtioSerial`. -/
structure VirtioSerial where
  logFile : String
  deriving DecidableEq

/-- virtio.go `VirtioVsock`. -/
structure VirtioVsock where
  port : Nat
  socketURL : String
  listen : Bool
  deriving DecidableEq

/-- virtio.go `USBMassStorage`: embedded `StorageConfig` only. -/
structure USBMassStorage where
  storageConfig : StorageConfig
  deriving DecidableEq

/-- `VirtioSerial.FromOptions`. -/
def VirtioSerial.FromOptions (dev : VirtioSerial) : List option → Except VErr VirtioSerial
  | [] => .ok dev
  | o :: rest =>
    if o.key = "logFilePath" then VirtioSerial.FromOptions { dev with logFile := o.value } rest
    else .error (.unknownOption "virtio-serial" o.key)

/-- `VirtioSerial.ToCmdLine`. -/
def VirtioSerial.ToCmdLine (dev : VirtioSerial) : Except VErr (List String) :=
  if dev.logFile = "" then .error .missingLogFile
  else .ok ["--device", "virtio-serial,logFilePath=" ++ dev.logFile]

/-- `VirtioNet.validate`. -/
def VirtioNet.validate (dev : VirtioNet) : Except VErr Unit :=
  if dev.nat && dev.socket.isSome then .error .natFdConflict
  else if !dev.nat && dev.socket.isNone then .error .natFdMissing
  else .ok ()

/-- The option loop of `VirtioNet.FromOptions`. -/
def VirtioNet.applyOptions (dev : VirtioNet) : List option → Except VErr VirtioNet
  | [] => .ok dev
  | o :: rest =>
    if o.key = "nat" then
      if o.value = "" then VirtioNet.applyOptions { dev with nat := true } rest
      else .error (.unexpectedValue "virtio-net" "nat" o.value)
    else if o.key = "mac" then
      match parseMAC o.value with
      | none => .error (.invalidMac o.value)
      | some m => VirtioNet.applyOptions { dev with macAddress := m } rest
    else if o.key = "fd" then
      match atoiGo o.value with
      | none => .error (.invalidNumber o.value)
      | some n => VirtioNet.applyOptions { dev with socket := osNewFile n } rest
    else .error (.unknownOption "virtio-net" o.key)

/-- `VirtioNet.FromOptions`: the option loop followed by `validate`. -/
def VirtioNet.FromOptions (dev : VirtioNet) (opts : List option) : Except VErr VirtioNet :=
  match VirtioNet.applyOptions dev opts with
  | .error e => .error e
  | .ok d =>
    match VirtioNet.validate d with
    | .error e => .error e
    | .ok _ => .ok d

/-- `VirtioNet.ToCmdLine`. -/
def VirtioNet.ToCmdLine (dev : VirtioNet) : Except VErr (List String) :=
  match VirtioNet.validate dev with
  | .error e => .error e
  | .ok _ =>
    let base :=
      if dev.nat then "virtio-net,nat"
      else "virtio-net,fd=" ++ toString (dev.socket.getD 0)
    let full :=
      if dev.macAddress.length = 0 then base
      else base ++ ",mac=" ++ macString dev.macAddress
    .ok ["--device", full]

/-- `VirtioRng.FromOptions`: any non-empty option list is rejected. -/
def VirtioRng.FromOptions (dev : VirtioRng) (opts : List option) : Except VErr VirtioRng :=
  if opts.length = 0 then .ok dev
  else .error (.unknownOptions "virtio-rng" opts)

/-- `VirtioRng.ToCmdLine`. -/
def VirtioRng.ToCmdLine (dev : VirtioRng) : Except VErr (List String) :=
  match dev with
  | _ => .ok ["--device", "virtio-rng"]

/-- `StorageConfig.FromOptions`. -/
def StorageConfig.FromOptions (config : StorageConfig) : List option → Except VErr StorageConfig
  | [] => .ok config
  | o :: rest =>
    if o.key = "path" then
      StorageConfig.FromOptions { config with imagePath := o.value } rest
    else .error (.unknownOption config.devName o.key)

/-- `StorageConfig.ToCmdLine`. -/
def StorageConfig.ToCmdLine (config : StorageConfig) : Except VErr (List String) :=
  if config.imagePath = "" then .error (.missingImagePath config.devName)
  else .ok ["--device", config.devName ++ ",path=" ++ config.imagePath]

/-- The option loop of `VirtioBlk.FromOptions`: `deviceId` is handled in
place, every other option is appended to the unhandled list in order. -/
def VirtioBlk.applyOptions (dev : VirtioBlk) (unhandled : List option) :
    List option → VirtioBlk × List option
  | [] => (dev, unhandled)
  | o :: rest =>
    if o.key = "deviceId" then
      VirtioBlk.applyOptions { dev with deviceIdentifier := o.value } unhandled rest
    else VirtioBlk.applyOptions dev (unhandled ++ [o]) rest

/-- `VirtioBlk.FromOptions`: unhandled options are delegated to the embedded
`StorageConfig`. -/
def VirtioBlk.FromOptions (dev : VirtioBlk) (opts : List option) : Except VErr VirtioBlk :=
  let r := VirtioBlk.applyOptions dev [] opts
  match StorageConfig.FromOptions r.1.storageConfig r.2 with
  | .error e => .error e
  | .ok sc => .ok { r.1 with storageConfig := sc }

/-- `VirtioBlk.ToCmdLine`: the storage command line, with `deviceId` appended
to the value token when set. -/
def VirtioBlk.ToCmdLine (dev : VirtioBlk) : Except VErr (List String) :=
  match StorageConfig.ToCmdLine dev.storageConfig with
  | .error e => .error e
  | .ok cmdLine =>
    if cmdLine.length ≠ 2 then .error .unexpectedStorageCmdline
    else if dev.deviceIdentifier ≠ "" then
      .ok [cmdLine.getD 0 "", cmdLine.getD 1 "" ++ ",deviceId=" ++ dev.deviceIdentifier]
    else .ok cmdLine

/-- `VirtioVsockNew` (the error return of the Go constructor is always nil). -/
def VirtioVsockNew (port : Nat) (socketURL : String) (listen : Bool) : VirtioVsock :=
  { port := port, socketURL := socketURL, listen := listen }

/-- `VirtioVsock.ToCmdLine`. -/
def VirtioVsock.ToCmdLine (dev : VirtioVsock) : Except VErr (List String) :=
  if dev.port = 0 ∨ dev.socketURL = "" then .error .missingPortOrURL
  else
    let listenStr := if dev.listen then "listen" else "connect"
    .ok ["--device",
      "virtio-vsock,port=" ++ toString dev.port ++ ",socketURL=" ++ dev.socketURL
        ++ "," ++ listenStr]

/-- The option loop of `VirtioVsock.FromOptions`. -/
def VirtioVsock.applyOptions (dev : VirtioVsock) : List option → Except VErr VirtioVsock
  | [] => .ok dev
  | o :: rest =>
    if o.key = "socketURL" then
      VirtioVsock.applyOptions { dev with socketURL := o.value } rest
    else if o.key = "port" then
      match atoiGo o.value with
      | none => .error (.invalidNumber o.value)
      | some n => VirtioVsock.applyOptions { dev with port := uintOfInt n } rest
    else if o.key = "listen" then
      VirtioVsock.applyOptions { dev with listen := true } rest
    else if o.key = "connect" then
      VirtioVsock.applyOptions { dev with listen := false } rest
    else .error (.unknownOption "virtio-vsock" o.key)

/-- `VirtioVsock.FromOptions`: `Listen` is reset to true (the backwards
compatibility default) before the option loop runs. -/
def VirtioVsock.FromOptions (dev : VirtioVsock) (opts : List option) : Except VErr VirtioVsock :=
  VirtioVsock.applyOptions { dev with listen := true } opts

/-- `VirtioFs.ToCmdLine`. -/
def VirtioFs.ToCmdLine (dev : VirtioFs) : Except VErr (List String) :=
  if dev.sharedDir = "" then .error .missingSharedDir
  else if dev.mountTag = "" then .ok ["--device", "virtio-fs,sharedDir=" ++ dev.sharedDir]
  else .ok ["--device", "virtio-fs,sharedDir=" ++ dev.sharedDir ++ ",mountTag=" ++ dev.mountTag]

/-- `VirtioFs.FromOptions`. -/
def VirtioFs.FromOptions (dev : VirtioFs) : List option → Except VErr VirtioFs
  | [] => .ok dev
  | o :: rest =>
    if o.key = "sharedDir" then VirtioFs.FromOptions { dev with sharedDir := o.value } rest
    else if o.key = "mountTag" then VirtioFs.FromOptions { dev with mountTag := o.value } rest
    else .error (.unknownOption "virtio-fs" o.key)

/-- `virtioBlkNewEmpty`: storage pre-seeded with the `virtio-blk` tag. -/
def virtioBlkNewEmpty : VirtioBlk :=
  { storageConfig := { devName := "virtio-blk", imagePath := "", readOnly := false },
    deviceIdentifier := "" }

/-- `usbMassStorageNewEmpty`: storage pre-seeded with `usb-mass-storage`. -/
def usbMassStorageNewEmpty : USBMassStorage :=
  { storageConfig := { devName := "usb-mass-storage", imagePath := "", readOnly := false } }

/-- `USBMassStorage.FromOptions`: the method promoted from the embedded
`StorageConfig`. -/
def USBMassStorage.FromOptions (dev : USBMassStorage) (opts : List option) :
    Except VErr USBMassStorage :=
  match StorageConfig.FromOptions dev.storageConfig opts with
  | .error e => .error e
  | .ok sc => .ok { storageConfig := sc }

/-- `USBMassStorage.ToCmdLine`: the method promoted from the embedded
`StorageConfig`. -/
def USBMassStorage.ToCmdLine (dev : USBMassStorage) : Except VErr (List String) :=
  StorageConfig.ToCmdLine dev.storageConfig

/-- The closed set of device variants behind the `VirtioDevice` interface. -/
inductive VirtioDevice where
  | blk (dev : VirtioBlk)
  | fs (dev : VirtioFs)
  | net (dev : VirtioNet)
  | rng (dev : VirtioRng)
  | serialPort (dev : VirtioSerial)
  | vsock (dev : VirtioVsock)
  | usb (dev : USBMassStorage)
  deriving DecidableEq

/-- Dynamic dispatch of `FromOptions` over the device variants. -/
def VirtioDevice.FromOptions : VirtioDevice → List option → Except VErr VirtioDevice
  | .blk dev, opts => (VirtioBlk.FromOptions dev opts).map VirtioDevice.blk
  | .fs dev, opts => (VirtioFs.FromOptions dev opts).map VirtioDevice.fs
  | .net dev, opts => (VirtioNet.FromOptions dev opts).map VirtioDevice.net
  | .rng dev, opts => (VirtioRng.FromOptions dev opts).map VirtioDevice.rng
  | .serialPort dev, opts => (VirtioSerial.FromOptions dev opts).map VirtioDevice.serialPort
  | .vsock dev, opts => (VirtioVsock.FromOptions dev opts).map VirtioDevice.vsock
  | .usb dev, opts => (USBMassStorage.FromOptions dev opts).map VirtioDevice.usb

/-- Dynamic dispatch of `ToCmdLine` over the device variants. -/
def VirtioDevice.ToCmdLine : VirtioDevice → Except VErr (List String)
  | .blk dev => VirtioBlk.ToCmdLine dev
  | .fs dev => VirtioFs.ToCmdLine dev
  | .net dev => VirtioNet.ToCmdLine dev
  | .rng dev => VirtioRng.ToCmdLine dev
  | .serialPort dev => VirtioSerial.ToCmdLine dev
  | .vsock dev => VirtioVsock.ToCmdLine dev
  | .usb dev => USBMassStorage.ToCmdLine dev

/-- The switch of `deviceFromCmdLine`: the empty variant for a known tag. -/
def emptyDeviceForTag (tag : String) : Option VirtioDevice :=
  if tag = "virtio-blk" then some (.blk virtioBlkNewEmpty)
  else if tag = "virtio-fs" then some (.fs { sharedDir := "", mountTag := "" })
  else if tag = "virtio-net" then some (.net { nat := false, macAddress := [], socket := none })
  else if tag = "virtio-rng" then some (.rng {})
  else if tag = "virtio-serial" then some (.serialPort { logFile := "" })
  else if tag = "virtio-vsock" then some (.vsock { port := 0, socketURL := "", listen := false })
  else if tag = "usb-mass-storage" then some (.usb usbMassStorageNewEmpty)
  else none

/-- virtio.go `deviceFromCmdLine`: split on commas, dispatch on the first
segment, then decode the remaining segments. -/
def deviceFromCmdLine (deviceOpts : String) : Except VErr VirtioDevice :=
  let opts := splitComma deviceOpts
  if opts.length = 0 then .error .emptySpec
  else
    match emptyDeviceForTag (opts.headD "") with
    | none => .error (.unknownDeviceType (opts.headD ""))
    | some dev => VirtioDevice.FromOptions dev (strvToOptions (opts.drop 1))

/-- Whether an `Except` result is a success. -/
def isOkResult {α : Type} : Except VErr α → Bool
  | .ok _ => true
  | .error _ => false

/-- Whether an error is the empty-spec error. -/
def VErr.isEmptySpecErr : VErr → Bool
  | .emptySpec => true
  | _ => false

/-- Whether a result is the empty-spec error. -/
def errIsEmptySpec {α : Type} : Except VErr α → Bool
  | .error e => e.isEmptySpecErr
  | .ok _ => false

/-- The option keys each variant's decode loop recognizes (the cases of its
`switch option.key`); `VirtioRng` recognizes none. -/
def recognizedKey : VirtioDevice → String → Bool
  | .blk _, k => k == "deviceId" || k == "path"
  | .usb _, k => k == "path"
  | .fs _, k => k == "sharedDir" || k == "mountTag"
  | .net _, k => k == "nat" || k == "mac" || k == "fd"
  | .serialPort _, k => k == "logFilePath"
  | .vsock _, k => k == "socketURL" || k == "port" || k == "listen" || k == "connect"
  | .rng _, _ => false

/-- The listen flag after sequentially applying the direction keys of an
option list to a starting value: `listen` sets it, `connect` clears it,
every other key leaves it alone. -/
def listenAfter (b : Bool) (opts : List option) : Bool :=
  opts.foldl
    (fun acc o =>
      if o.key = "listen" then true
      else if o.key = "connect" then false
      else acc) b

/-! ### Helper lemmas about the tokenizer -/

lemma splitFirstEq_of_not_mem : ∀ cs : List Char, '=' ∉ cs → splitFirstEq cs = (cs, none) := by
  intro cs
  induction cs with
  | nil => intro _; rfl
  | cons c cs ih =>
    intro h
    have hc : c ≠ '=' := fun hc => h (hc ▸ List.mem_cons_self c cs)
    have hcs : '=' ∉ cs := fun hm => h (List.mem_cons_of_mem c hm)
    have hne : ¬(c = '=') := fun hh => hc hh
    simp [splitFirstEq, hne, ih hcs]

lemma splitFirstEq_append : ∀ (k v : List Char), '=' ∉ k →
    splitFirstEq (k ++ '=' :: v) = (k, some v) := by
  intro k
  induction k with
  | nil => intro v _; simp [splitFirstEq]
  | cons c k ih =>
    intro v h
    have hc : ¬(c = '=') := fun hc => h (hc ▸ List.mem_cons_self c k)
    have hk : '=' ∉ k := fun hm => h (List.mem_cons_of_mem c hm)
    simp [splitFirstEq, hc, ih v hk]

lemma splitCommaAux_ne_nil : ∀ (cs acc : List Char), splitCommaAux cs acc ≠ [] := by
  intro cs
  induction cs with
  | nil => intro acc h; simp [splitCommaAux] at h
  | cons c cs ih =>
    intro acc h
    by_cases hc : c = ','
    · simp [splitCommaAux, hc] at h
    · simp only [splitCommaAux, hc, if_false] at h
      exact ih (c :: acc) h

lemma splitComma_ne_nil (s : String) : splitComma s ≠ [] :=
  splitCommaAux_ne_nil s.data []

/-- Claim C4: the tokenizer drops every empty segment silently and keeps the
rest in order; each kept segment is split at the first `=` only, with an empty
value when the segment has no `=`, and the value keeping any further `=`. -/
theorem tokenizer_spec :
    (∀ segs : List String,
        strvToOptions segs = (segs.filter (fun s => !(s.length == 0))).map strToOption)
    ∧ (∀ s : String, '=' ∉ s.data → strToOption s = { key := s, value := "" })
    ∧ (∀ k v : List Char, '=' ∉ k →
        strToOption (String.mk (k ++ '=' :: v)) = { key := String.mk k, value := String.mk v }) := by
  refine ⟨?_, ?_, ?_⟩
  · intro segs
    induction segs with
    | nil => rfl
    | cons s rest ih =>
      by_cases h : s.length = 0
      · simp [strvToOptions, h, ih, List.filter_cons]
      · simp [strvToOptions, h, ih, List.filter_cons]
  · intro s h
    obtain ⟨cs⟩ := s
    simp only [strToOption, splitFirstEq_of_not_mem cs h]
  · intro k v h
    simp only [strToOption, String.data]
    rw [splitFirstEq_append k v h]

/-- Claim C4 witness: the tokenizer splitting rules at concrete segments. -/
theorem tokenizer_spec_witness :
    strToOption "nat" = { key := "nat", value := "" }
    ∧ strToOption "a=b=c" = { key := "a", value := "b=c" } := by
  constructor
  · exact tokenizer_spec.2.1 "nat" (by decide)
  · exact tokenizer_spec.2.2 ['a'] ['b', '=', 'c'] (by decide)

/-- Claim C6: a first segment matching none of the seven known device tags
makes dispatch fail with the unknown-device-type error naming that tag. -/
theorem dispatch_unknown_tag (s t : String) (rest : List String)
    (hsplit : splitComma s = t :: rest)
    (hunknown : t ∉ ["virtio-blk", "virtio-fs", "virtio-net", "virtio-rng",
        "virtio-serial", "virtio-vsock", "usb-mass-storage"]) :
    deviceFromCmdLine s = .error (.unknownDeviceType t) := by
  simp only [List.mem_cons, List.not_mem_nil, or_false, not_or] at hunknown
  obtain ⟨h1, h2, h3, h4, h5, h6, h7⟩ := hunknown
  unfold deviceFromCmdLine
  rw [hsplit]
  simp [emptyDeviceForTag, h1, h2, h3, h4, h5, h6, h7]

/-- Claim C6 witness: dispatching a concrete unknown tag. -/
theorem dispatch_unknown_tag_witness :
    splitComma "foo,bar" = ["foo", "bar"]
    ∧ deviceFromCmdLine "foo,bar" = .error (.unknownDeviceType "foo") := by
  refine ⟨rfl, ?_⟩
  exact dispatch_unknown_tag "foo,bar" "foo" ["bar"] rfl (by decide)

/-! ### No decode path produces the empty-spec error -/

lemma errIsEmptySpec_map {α β : Type} (f : α → β) (r : Except VErr α) :
    errIsEmptySpec (r.map f) = errIsEmptySpec r := by
  cases r <;> rfl

lemma serial_no_emptySpec : ∀ (opts : List option) (dev : VirtioSerial),
    errIsEmptySpec (VirtioSerial.FromOptions dev opts) = false := by
  intro opts
  induction opts with
  | nil => intro dev; rfl
  | cons o rest ih =>
    intro dev
    by_cases h : o.key = "logFilePath"
    · simp [VirtioSerial.FromOptions, h, ih]
    · simp [VirtioSerial.FromOptions, h, errIsEmptySpec, VErr.isEmptySpecErr]

lemma fs_no_emptySpec : ∀ (opts : List option) (dev : VirtioFs),
    errIsEmptySpec (VirtioFs.FromOptions dev opts) = false := by
  intro opts
  induction opts with
  | nil => intro dev; rfl
  | cons o rest ih =>
    intro dev
    by_cases h1 : o.key = "sharedDir"
    · simp [VirtioFs.FromOptions, h1, ih]
    · by_cases h2 : o.key = "mountTag"
      · simp [VirtioFs.FromOptions, h1, h2, ih]
      · simp [VirtioFs.FromOptions, h1, h2, errIsEmptySpec, VErr.isEmptySpecErr]

lemma rng_no_emptySpec : ∀ (opts : List option) (dev : VirtioRng),
    errIsEmptySpec (VirtioRng.FromOptions dev opts) = false := by
  intro opts dev
  by_cases h : opts.length = 0
  · simp [VirtioRng.FromOptions, h, errIsEmptySpec]
  · simp [VirtioRng.FromOptions, h, errIsEmptySpec, VErr.isEmptySpecErr]

lemma storage_no_emptySpec : ∀ (opts : List option) (config : StorageConfig),
    errIsEmptySpec (StorageConfig.FromOptions config opts) = false := by
  intro opts
  induction opts with
  | nil => intro config; rfl
  | cons o rest ih =>
    intro config
    by_cases h : o.key = "path"
    · simp [StorageConfig.FromOptions, h, ih]
    · simp [StorageConfig.FromOptions, h, errIsEmptySpec, VErr.isEmptySpecErr]

lemma vsock_apply_no_emptySpec : ∀ (opts : List option) (dev : VirtioVsock),
    errIsEmptySpec (VirtioVsock.applyOptions dev opts) = false := by
  intro opts
  induction opts with
  | nil => intro dev; rfl
  | cons o rest ih =>
    intro dev
    by_cases h1 : o.key = "socketURL"
    · simp [VirtioVsock.applyOptions, h1, ih]
    · by_cases h2 : o.key = "port"
      · rcases hat : atoiGo o.value with _ | n
        · simp [VirtioVsock.applyOptions, h1, h2, hat, errIsEmptySpec, VErr.isEmptySpecErr]
        · simp [VirtioVsock.applyOptions, h1, h2, hat, ih]
      · by_cases h3 : o.key = "listen"
        · simp [VirtioVsock.applyOptions, h1, h2, h3, ih]
        · by_cases h4 : o.key = "connect"
          · simp [VirtioVsock.applyOptions, h1, h2, h3, h4, ih]
          · simp [VirtioVsock.applyOptions, h1, h2, h3, h4, errIsEmptySpec, VErr.isEmptySpecErr]

lemma vsock_no_emptySpec : ∀ (opts : List option) (dev : VirtioVsock),
    errIsEmptySpec (VirtioVsock.FromOptions dev opts) = false := by
  intro opts dev
  exact vsock_apply_no_emptySpec opts { dev with listen := true }

lemma net_apply_no_emptySpec : ∀ (opts : List option) (dev : VirtioNet),
    errIsEmptySpec (VirtioNet.applyOptions dev opts) = false := by
  intro opts
  induction opts with
  | nil => intro dev; rfl
  | cons o rest ih =>
    intro dev
    by_cases h1 : o.key = "nat"
    · by_cases hv : o.value = ""
      · simp [VirtioNet.applyOptions, h1, hv, ih]
      · simp [VirtioNet.applyOptions, h1, hv, errIsEmptySpec, VErr.isEmptySpecErr]
    · by_cases h2 : o.key = "mac"
      · rcases hm : parseMAC o.value with _ | m
        · simp [VirtioNet.applyOptions, h1, h2, hm, errIsEmptySpec, VErr.isEmptySpecErr]
        · simp [VirtioNet.applyOptions, h1, h2, hm, ih]
      · by_cases h3 : o.key = "fd"
        · rcases hat : atoiGo o.value with _ | n
          · simp [VirtioNet.applyOptions, h1, h2, h3, hat, errIsEmptySpec, VErr.isEmptySpecErr]
          · simp [VirtioNet.applyOptions, h1, h2, h3, hat, ih]
        · simp [VirtioNet.applyOptions, h1, h2, h3, errIsEmptySpec, VErr.isEmptySpecErr]

lemma validate_no_emptySpec (dev : VirtioNet) :
    errIsEmptySpec (VirtioNet.validate dev) = false := by
  unfold VirtioNet.validate
  split
  · rfl
  · split
    · rfl
    · rfl

lemma net_no_emptySpec : ∀ (opts : List option) (dev : VirtioNet),
    errIsEmptySpec (VirtioNet.FromOptions dev opts) = false := by
  intro opts dev
  rcases h : VirtioNet.applyOptions dev opts with e | d
  · have h2 := net_apply_no_emptySpec opts dev
    rw [h] at h2
    simpa [VirtioNet.FromOptions, h, errIsEmptySpec] using h2
  · rcases hv : VirtioNet.validate d with e | u
    · have h3 := validate_no_emptySpec d
      rw [hv] at h3
      simpa [VirtioNet.FromOptions, h, hv, errIsEmptySpec] using h3
    · simp [VirtioNet.FromOptions, h, hv, errIsEmptySpec]

lemma blk_no_emptySpec : ∀ (opts : List option) (dev : VirtioBlk),
    errIsEmptySpec (VirtioBlk.FromOptions dev opts) = false := by
  intro opts dev
  rcases h : StorageConfig.FromOptions (VirtioBlk.applyOptions dev [] opts).1.storageConfig
      (VirtioBlk.applyOptions dev [] opts).2 with e | sc
  · have h2 := storage_no_emptySpec (VirtioBlk.applyOptions dev [] opts).2
      (VirtioBlk.applyOptions dev [] opts).1.storageConfig
    rw [h] at h2
    simp only [VirtioBlk.FromOptions, h]
    simpa [errIsEmptySpec] using h2
  · simp only [VirtioBlk.FromOptions, h]
    rfl

lemma usb_no_emptySpec : ∀ (opts : List option) (dev : USBMassStorage),
    errIsEmptySpec (USBMassStorage.FromOptions dev opts) = false := by
  intro opts dev
  unfold USBMassStorage.FromOptions
  rcases h : StorageConfig.FromOptions dev.storageConfig opts with e | sc
  · have h2 := storage_no_emptySpec opts dev.storageConfig
    rw [h] at h2
    simpa [errIsEmptySpec] using h2
  · rfl

lemma device_fromOptions_no_emptySpec (d : VirtioDevice) (opts : List option) :
    errIsEmptySpec (VirtioDevice.FromOptions d opts) = false := by
  cases d <;>
    simp [VirtioDevice.FromOptions, errIsEmptySpec_map, serial_no_emptySpec, fs_no_emptySpec,
      rng_no_emptySpec, vsock_no_emptySpec, net_no_emptySpec, blk_no_emptySpec, usb_no_emptySpec]

/-- Claim C8 counterexample: the empty input does not fail with the empty-spec
error; it tokenizes to one empty segment and fails with the unknown-device-type
error naming the empty tag. -/
theorem empty_input_not_emptySpec :
    deviceFromCmdLine "" = .error (.unknownDeviceType "")
    ∧ VErr.unknownDeviceType "" ≠ VErr.emptySpec := by
  exact ⟨rfl, by decide⟩

/-- Claim C8 (amended): tokenizing always yields at least one segment, so no
input reaches the empty-spec branch; the dispatcher never returns the
empty-spec error, and the empty input fails with the unknown-device-type
error for the empty tag instead. -/
theorem emptySpec_unreachable :
    (∀ s : String, 1 ≤ (splitComma s).length)
    ∧ (∀ s : String, errIsEmptySpec (deviceFromCmdLine s) = false)
    ∧ deviceFromCmdLine "" = .error (.unknownDeviceType "") := by
  refine ⟨?_, ?_, rfl⟩
  · intro s
    exact List.length_pos.mpr (splitComma_ne_nil s)
  · intro s
    have hne := splitComma_ne_nil s
    rcases hsp : splitComma s with _ | ⟨t, rest⟩
    · exact absurd hsp hne
    · rcases h : emptyDeviceForTag t with _ | dev
      · simp [deviceFromCmdLine, hsp, h, errIsEmptySpec, VErr.isEmptySpecErr]
      · simp [deviceFromCmdLine, hsp, h, device_fromOptions_no_emptySpec]

/-! ### The vsock listen flag -/

lemma vsock_apply_listen : ∀ (opts : List option) (dev res : VirtioVsock),
    VirtioVsock.applyOptions dev opts = .ok res → res.listen = listenAfter dev.listen opts := by
  intro opts
  induction opts with
  | nil =>
    intro dev res h
    simp only [VirtioVsock.applyOptions, Except.ok.injEq] at h
    subst h
    rfl
  | cons o rest ih =>
    intro dev res h
    by_cases h1 : o.key = "socketURL"
    · simp only [VirtioVsock.applyOptions, h1, if_true, eq_self_iff_true, if_pos] at h
      simpa [listenAfter, h1] using ih _ _ h
    · by_cases h2 : o.key = "port"
      · rcases hat : atoiGo o.value with _ | n
        · simp [VirtioVsock.applyOptions, h1, h2, hat] at h
        · simp only [VirtioVsock.applyOptions, h1, h2, hat, if_false, if_true,
            eq_self_iff_true, if_pos, if_neg] at h
          simpa [listenAfter, h1, h2] using ih _ _ h
      · by_cases h3 : o.key = "listen"
        · simp only [VirtioVsock.applyOptions, h1, h2, h3, if_false, if_true,
            eq_self_iff_true, if_pos, if_neg] at h
          simpa [listenAfter, h1, h2, h3] using ih _ _ h
        · by_cases h4 : o.key = "connect"
          · simp only [VirtioVsock.applyOptions, h1, h2, h3, h4, if_false, if_true,
              eq_self_iff_true, if_pos, if_neg] at h
            simpa [listenAfter, h1, h2, h3, h4] using ih _ _ h
          · simp [VirtioVsock.applyOptions, h1, h2, h3, h4] at h

lemma vsock_from_listen (dev : VirtioVsock) (opts : List option) (res : VirtioVsock)
    (h : VirtioVsock.FromOptions dev opts = .ok res) : res.listen = listenAfter true opts := by
  have h2 := vsock_apply_listen opts { dev with listen := true } res h
  simpa using h2

lemma listenAfter_no_direction : ∀ (opts : List option) (b : Bool),
    (∀ o ∈ opts, o.key ≠ "listen" ∧ o.key ≠ "connect") → listenAfter b opts = b := by
  intro opts
  induction opts with
  | nil => intro b _; rfl
  | cons o rest ih =>
    intro b hno
    have ho := hno o (List.mem_cons_self o rest)
    have hrest := fun q hq => hno q (List.mem_cons_of_mem o hq)
    simp only [listenAfter, List.foldl_cons, if_neg ho.1, if_neg ho.2]
    exact ih b hrest

lemma listenAfter_true_no_connect : ∀ (opts : List option),
    (∀ o ∈ opts, o.key ≠ "connect") → listenAfter true opts = true := by
  intro opts
  induction opts with
  | nil => intro _; rfl
  | cons o rest ih =>
    intro hno
    have ho := hno o (List.mem_cons_self o rest)
    have hrest := fun q hq => hno q (List.mem_cons_of_mem o hq)
    by_cases hl : o.key = "listen"
    · simp only [listenAfter, List.foldl_cons, if_pos hl]
      exact ih hrest
    · simp only [listenAfter, List.foldl_cons, if_neg hl, if_neg ho]
      exact ih hrest

lemma listenAfter_append (l1 l2 : List option) (b : Bool) :
    listenAfter b (l1 ++ l2) = listenAfter (listenAfter b l1) l2 := by
  simp [listenAfter, List.foldl_append]

/-- Claim C3: the vsock direction defaults to listen when no direction key
appears, the last direction key in sequence order wins, and the concrete spec
"virtio-vsock,port=1024,socketURL=/tmp/s.sock" decodes to a listening device
that encodes back with a trailing `listen` flag. -/
theorem vsock_direction_spec :
    (∀ (dev : VirtioVsock) (opts : List option) (res : VirtioVsock),
        VirtioVsock.FromOptions dev opts = .ok res →
        (∀ o ∈ opts, o.key ≠ "listen" ∧ o.key ≠ "connect") → res.listen = true)
    ∧ (∀ (dev : VirtioVsock) (pre : List option) (o : option) (post : List option)
          (res : VirtioVsock),
        (o.key = "listen" ∨ o.key = "connect") →
        (∀ q ∈ post, q.key ≠ "listen" ∧ q.key ≠ "connect") →
        VirtioVsock.FromOptions dev (pre ++ o :: post) = .ok res →
        res.listen = (o.key == "listen"))
    ∧ deviceFromCmdLine "virtio-vsock,port=1024,socketURL=/tmp/s.sock"
        = .ok (.vsock { port := 1024, socketURL := "/tmp/s.sock", listen := true })
    ∧ VirtioDevice.ToCmdLine (.vsock { port := 1024, socketURL := "/tmp/s.sock", listen := true })
        = .ok ["--device", "virtio-vsock,port=1024,socketURL=/tmp/s.sock,listen"] := by
  refine ⟨?_, ?_, rfl, rfl⟩
  · intro dev opts res h hno
    rw [vsock_from_listen dev opts res h]
    exact listenAfter_no_direction opts true hno
  · intro dev pre o post res hdir hno h
    rw [vsock_from_listen dev (pre ++ o :: post) res h]
    rw [listenAfter_append pre (o :: post) true]
    have hcons : listenAfter (listenAfter true pre) (o :: post)
        = listenAfter
            (if o.key = "listen" then true
              else if o.key = "connect" then false else listenAfter true pre) post := by
      simp [listenAfter, List.foldl_cons]
    rw [hcons, listenAfter_no_direction post _ hno]
    rcases hdir with hl | hc
    · simp [hl]
    · have hnl : o.key ≠ "listen" := by
        rw [hc]
        decide
      simp [hc, hnl]

/-- Claim C3 witness: with both direction keys present, the last one
(`connect`) wins. -/
theorem vsock_direction_spec_witness :
    (VirtioVsock.FromOptions { port := 0, socketURL := "", listen := false }
        [{ key := "listen", value := "" }, { key := "connect", value := "" }]
      = .ok { port := 0, socketURL := "", listen := false })
    ∧ ({ port := 0, socketURL := "", listen := false } : VirtioVsock).listen
        = (({ key := "connect", value := "" } : option).key == "listen") := by
  refine ⟨rfl, ?_⟩
  exact vsock_direction_spec.2.1 { port := 0, socketURL := "", listen := false }
    [{ key := "listen", value := "" }] { key := "connect", value := "" } []
    { port := 0, socketURL := "", listen := false }
    (Or.inr rfl) (by simp) rfl

/-- Claim C10: vsock decode resets the listen flag to true before scanning, so
a device built with listen=false ends up listening after any decode whose
options contain no `connect` key; decode is reset-then-apply, not an overlay. -/
theorem vsock_decode_resets_listen :
    (∀ (dev : VirtioVsock) (opts : List option) (res : VirtioVsock),
        dev.listen = false → (∀ o ∈ opts, o.key ≠ "connect") →
        VirtioVsock.FromOptions dev opts = .ok res → res.listen = true)
    ∧ (∀ (port : Nat) (url : String), (VirtioVsockNew port url false).listen = false) := by
  refine ⟨?_, fun _ _ => rfl⟩
  intro dev opts res _ hno h
  rw [vsock_from_listen dev opts res h]
  exact listenAfter_true_no_connect opts hno

/-- Claim C10 witness: a non-listening device built by the constructor decodes
a connect-free option list into a listening device. -/
theorem vsock_decode_resets_listen_witness :
    (VirtioVsockNew 5 "/x" false).listen = false
    ∧ VirtioVsock.FromOptions (VirtioVsockNew 5 "/x" false) [{ key := "port", value := "1" }]
        = .ok { port := 1, socketURL := "/x", listen := true }
    ∧ ({ port := 1, socketURL := "/x", listen := true } : VirtioVsock).listen = true := by
  refine ⟨rfl, rfl, ?_⟩
  exact vsock_decode_resets_listen.1 (VirtioVsockNew 5 "/x" false)
    [{ key := "port", value := "1" }] { port := 1, socketURL := "/x", listen := true }
    rfl (by decide) rfl

/-! ### Storage frame conditions -/

lemma storage_from_frame : ∀ (opts : List option) (config res : StorageConfig),
    StorageConfig.FromOptions config opts = .ok res →
    res.devName = config.devName ∧ res.readOnly = config.readOnly := by
  intro opts
  induction opts with
  | nil =>
    intro config res h
    simp only [StorageConfig.FromOptions, Except.ok.injEq] at h
    subst h
    exact ⟨rfl, rfl⟩
  | cons o rest ih =>
    intro config res h
    by_cases hk : o.key = "path"
    · simp only [StorageConfig.FromOptions, hk, if_true, eq_self_iff_true, if_pos] at h
      exact ih { config with imagePath := o.value } res h
    · simp [StorageConfig.FromOptions, hk] at h

/-- Claim C9: storage decode changes neither the device name nor the read-only
flag (no option key sets them), and storage encode ignores the read-only flag
entirely. -/
theorem storage_frame :
    (∀ (config : StorageConfig) (opts : List option) (res : StorageConfig),
        StorageConfig.FromOptions config opts = .ok res →
        res.devName = config.devName ∧ res.readOnly = config.readOnly)
    ∧ (∀ (config : StorageConfig) (b : Bool),
        StorageConfig.ToCmdLine { config with readOnly := b }
          = StorageConfig.ToCmdLine config) := by
  refine ⟨?_, fun config b => rfl⟩
  intro config opts res h
  exact storage_from_frame opts config res h

/-- Claim C9 witness: a concrete decode keeps the device name and read-only
flag. -/
theorem storage_frame_witness :
    (StorageConfig.FromOptions { devName := "virtio-blk", imagePath := "", readOnly := true }
        [{ key := "path", value := "/a" }]
      = .ok { devName := "virtio-blk", imagePath := "/a", readOnly := true })
    ∧ ({ devName := "virtio-blk", imagePath := "/a", readOnly := true } : StorageConfig).devName
        = "virtio-blk"
    ∧ ({ devName := "virtio-blk", imagePath := "/a", readOnly := true } : StorageConfig).readOnly
        = true := by
  refine ⟨rfl, ?_⟩
  exact storage_frame.1 { devName := "virtio-blk", imagePath := "", readOnly := true }
    [{ key := "path", value := "/a" }]
    { devName := "virtio-blk", imagePath := "/a", readOnly := true } rfl

/-- Claim C1: the block-device spec with path and deviceId round-trips through
decode and encode to exactly the same value token, while the bare
"virtio-blk" spec decodes fine but fails encode with the missing-image-path
error and produces no tokens. -/
theorem blk_roundtrip :
    deviceFromCmdLine "virtio-blk,path=/img.raw,deviceId=disk0"
      = .ok (.blk ⟨⟨"virtio-blk", "/img.raw", false⟩, "disk0"⟩)
    ∧ VirtioDevice.ToCmdLine (.blk ⟨⟨"virtio-blk", "/img.raw", false⟩, "disk0"⟩)
      = .ok ["--device", "virtio-blk,path=/img.raw,deviceId=disk0"]
    ∧ deviceFromCmdLine "virtio-blk" = .ok (.blk virtioBlkNewEmpty)
    ∧ VirtioDevice.ToCmdLine (.blk virtioBlkNewEmpty)
      = .error (.missingImagePath "virtio-blk") := by
  exact ⟨rfl, rfl, rfl, rfl⟩

/-- Claim C2 counterexample: decoding "virtio-net,mac=aa:bb:cc:dd:ee:ff" does
not leave the failure to encode time; the decode itself already fails with
the missing nat-or-fd error, because FromOptions ends by validating. -/
theorem net_mac_only_fails_at_decode :
    deviceFromCmdLine "virtio-net,mac=aa:bb:cc:dd:ee:ff" = .error .natFdMissing
    ∧ isOkResult (deviceFromCmdLine "virtio-net,mac=aa:bb:cc:dd:ee:ff") = false := by
  exact ⟨rfl, rfl⟩

/-- Claim C2 (amended): network encode succeeds exactly when one of the NAT
flag and the socket handle is set, failing with the conflict error when both
are set and the missing error when neither is; "virtio-net,nat,fd=5" fails
decode with the conflict error, and "virtio-net,mac=aa:bb:cc:dd:ee:ff" fails
with the missing nat-or-fd error already at decode time. -/
theorem net_encode_exclusivity :
    (∀ dev : VirtioNet,
        isOkResult (VirtioNet.ToCmdLine dev) = true
          ↔ ((dev.nat = true ∧ dev.socket = none)
              ∨ (dev.nat = false ∧ dev.socket.isSome = true)))
    ∧ (∀ dev : VirtioNet, dev.nat = true → dev.socket.isSome = true →
        VirtioNet.ToCmdLine dev = .error .natFdConflict)
    ∧ (∀ dev : VirtioNet, dev.nat = false → dev.socket = none →
        VirtioNet.ToCmdLine dev = .error .natFdMissing)
    ∧ deviceFromCmdLine "virtio-net,nat,fd=5" = .error .natFdConflict
    ∧ deviceFromCmdLine "virtio-net,mac=aa:bb:cc:dd:ee:ff" = .error .natFdMissing := by
  refine ⟨?_, ?_, ?_, rfl, rfl⟩
  · intro dev
    rcases dev with ⟨n, m, s⟩
    cases n <;> rcases s with _ | fd <;>
      simp [VirtioNet.ToCmdLine, VirtioNet.validate, isOkResult]
  · intro dev h1 h2
    rcases dev with ⟨n, m, s⟩
    simp only at h1
    subst h1
    rcases s with _ | fd
    · simp at h2
    · simp [VirtioNet.ToCmdLine, VirtioNet.validate]
  · intro dev h1 h2
    rcases dev with ⟨n, m, s⟩
    simp only at h1 h2
    subst h1
    subst h2
    simp [VirtioNet.ToCmdLine, VirtioNet.validate]

/-- Claim C2 witness: the exactly-one-set encode condition at concrete
devices. -/
theorem net_encode_exclusivity_witness :
    isOkResult (VirtioNet.ToCmdLine { nat := true, macAddress := [], socket := none }) = true
    ∧ VirtioNet.ToCmdLine { nat := true, macAddress := [], socket := some 3 }
        = .error .natFdConflict
    ∧ VirtioNet.ToCmdLine { nat := false, macAddress := [], socket := none }
        = .error .natFdMissing := by
  refine ⟨?_, ?_, ?_⟩
  · exact (net_encode_exclusivity.1 { nat := true, macAddress := [], socket := none }).mpr
      (Or.inl ⟨rfl, rfl⟩)
  · exact net_encode_exclusivity.2.1 { nat := true, macAddress := [], socket := some 3 } rfl rfl
  · exact net_encode_exclusivity.2.2.1 { nat := false, macAddress := [], socket := none } rfl rfl

/-- Claim C7 counterexample: a negative fd is not always rejected: with `nat`
also present, "virtio-net,nat,fd=-1" decodes successfully, the negative
descriptor silently collapsing to an unset socket. -/
theorem negative_fd_not_always_rejected :
    deviceFromCmdLine "virtio-net,nat,fd=-1"
      = .ok (.net { nat := true, macAddress := [], socket := none })
    ∧ isOkResult (deviceFromCmdLine "virtio-net,nat,fd=-1") = true := by
  exact ⟨rfl, rfl⟩

/-- Claim C7 (amended): a non-numeric vsock port or net fd value fails decode
with the integer-parse error; a negative fd parses but yields an unset socket
handle (os.NewFile returns nil), so decoding a lone negative fd fails with
the missing nat-or-fd error, and with `nat` also set the negative fd is
silently ignored. -/
theorem numeric_values_parse_or_fail :
    (∀ (dev : VirtioVsock) (v : String) (rest : List option), atoiGo v = none →
        VirtioVsock.FromOptions dev ({ key := "port", value := v } :: rest)
          = .error (.invalidNumber v))
    ∧ (∀ (dev : VirtioNet) (v : String) (rest : List option), atoiGo v = none →
        VirtioNet.FromOptions dev ({ key := "fd", value := v } :: rest)
          = .error (.invalidNumber v))
    ∧ (∀ n : Int, n < 0 → osNewFile n = none)
    ∧ (∀ (v : String) (n : Int), atoiGo v = some n → n < 0 →
        VirtioNet.FromOptions { nat := false, macAddress := [], socket := none }
          [{ key := "fd", value := v }] = .error .natFdMissing) := by
  refine ⟨?_, ?_, ?_, ?_⟩
  · intro dev v rest h
    simp [VirtioVsock.FromOptions, VirtioVsock.applyOptions, h]
  · intro dev v rest h
    simp [VirtioNet.FromOptions, VirtioNet.applyOptions, h]
  · intro n h
    simp [osNewFile, h]
  · intro v n hv hneg
    simp [VirtioNet.FromOptions, VirtioNet.applyOptions, hv, osNewFile, hneg,
      VirtioNet.validate]

/-- Claim C7 witness: the numeric parse failures and the lone negative fd at
concrete values. -/
theorem numeric_values_parse_or_fail_witness :
    atoiGo "zz" = none
    ∧ VirtioVsock.FromOptions { port := 0, socketURL := "", listen := false }
        [{ key := "port", value := "zz" }] = .error (.invalidNumber "zz")
    ∧ VirtioNet.FromOptions { nat := false, macAddress := [], socket := none }
        [{ key := "fd", value := "-7" }] = .error .natFdMissing := by
  refine ⟨rfl, ?_, ?_⟩
  · exact numeric_values_parse_or_fail.1 { port := 0, socketURL := "", listen := false } "zz" [] rfl
  · exact numeric_values_parse_or_fail.2.2.2 "-7" (-7) rfl (by decide)

/-! ### Successful decodes only consume recognized keys -/

lemma serial_ok_keys : ∀ (opts : List option) (dev res : VirtioSerial),
    VirtioSerial.FromOptions dev opts = .ok res → ∀ o ∈ opts, o.key = "logFilePath" := by
  intro opts
  induction opts with
  | nil => intro dev res _ o ho; exact absurd ho (List.not_mem_nil o)
  | cons p rest ih =>
    intro dev res h o ho
    by_cases hk : p.key = "logFilePath"
    · simp only [VirtioSerial.FromOptions, hk, if_true, eq_self_iff_true, if_pos] at h
      rcases List.mem_cons.mp ho with rfl | ho2
      · exact hk
      · exact ih _ _ h o ho2
    · simp [VirtioSerial.FromOptions, hk] at h

lemma fs_ok_keys : ∀ (opts : List option) (dev res : VirtioFs),
    VirtioFs.FromOptions dev opts = .ok res →
    ∀ o ∈ opts, o.key = "sharedDir" ∨ o.key = "mountTag" := by
  intro opts
  induction opts with
  | nil => intro dev res _ o ho; exact absurd ho (List.not_mem_nil o)
  | cons p rest ih =>
    intro dev res h o ho
    by_cases h1 : p.key = "sharedDir"
    · simp only [VirtioFs.FromOptions, h1, if_true, eq_self_iff_true, if_pos] at h
      rcases List.mem_cons.mp ho with rfl | ho2
      · exact Or.inl h1
      · exact ih _ _ h o ho2
    · by_cases h2 : p.key = "mountTag"
      · simp only [VirtioFs.FromOptions, h1, h2, if_true, if_false, eq_self_iff_true,
          if_pos, if_neg] at h
        rcases List.mem_cons.mp ho with rfl | ho2
        · exact Or.inr h2
        · exact ih _ _ h o ho2
      · simp [VirtioFs.FromOptions, h1, h2] at h

lemma storage_ok_keys : ∀ (opts : List option) (config res : StorageConfig),
    StorageConfig.FromOptions config opts = .ok res → ∀ o ∈ opts, o.key = "path" := by
  intro opts
  induction opts with
  | nil => intro config res _ o ho; exact absurd ho (List.not_mem_nil o)
  | cons p rest ih =>
    intro config res h o ho
    by_cases hk : p.key = "path"
    · simp only [StorageConfig.FromOptions, hk, if_true, eq_self_iff_true, if_pos] at h
      rcases List.mem_cons.mp ho with rfl | ho2
      · exact hk
      · exact ih _ _ h o ho2
    · simp [StorageConfig.FromOptions, hk] at h

lemma vsock_apply_ok_keys : ∀ (opts : List option) (dev res : VirtioVsock),
    VirtioVsock.applyOptions dev opts = .ok res →
    ∀ o ∈ opts,
      o.key = "socketURL" ∨ o.key = "port" ∨ o.key = "listen" ∨ o.key = "connect" := by
  intro opts
  induction opts with
  | nil => intro dev res _ o ho; exact absurd ho (List.not_mem_nil o)
  | cons p rest ih =>
    intro dev res h o ho
    by_cases h1 : p.key = "socketURL"
    · simp only [VirtioVsock.applyOptions, h1, if_true, eq_self_iff_true, if_pos] at h
      rcases List.mem_cons.mp ho with rfl | ho2
      · exact Or.inl h1
      · exact ih _ _ h o ho2
    · by_cases h2 : p.key = "port"
      · rcases hat : atoiGo p.value with _ | n
        · simp [VirtioVsock.applyOptions, h1, h2, hat] at h
        · simp only [VirtioVsock.applyOptions, h1, h2, hat, if_true, if_false,
            eq_self_iff_true, if_pos, if_neg] at h
          rcases List.mem_cons.mp ho with rfl | ho2
          · exact Or.inr (Or.inl h2)
          · exact ih _ _ h o ho2
      · by_cases h3 : p.key = "listen"
        · simp only [VirtioVsock.applyOptions, h1, h2, h3, if_true, if_false,
            eq_self_iff_true, if_pos, if_neg] at h
          rcases List.mem_cons.mp ho with rfl | ho2
          · exact Or.inr (Or.inr (Or.inl h3))
          · exact ih _ _ h o ho2
        · by_cases h4 : p.key = "connect"
          · simp only [VirtioVsock.applyOptions, h1, h2, h3, h4, if_true, if_false,
              eq_self_iff_true, if_pos, if_neg] at h
            rcases List.mem_cons.mp ho with rfl | ho2
            · exact Or.inr (Or.inr (Or.inr h4))
            · exact ih _ _ h o ho2
          · simp [VirtioVsock.applyOptions, h1, h2, h3, h4] at h

lemma net_apply_ok_keys : ∀ (opts : List option) (dev res : VirtioNet),
    VirtioNet.applyOptions dev opts = .ok res →
    ∀ o ∈ opts, o.key = "nat" ∨ o.key = "mac" ∨ o.key = "fd" := by
  intro opts
  induction opts with
  | nil => intro dev res _ o ho; exact absurd ho (List.not_mem_nil o)
  | cons p rest ih =>
    intro dev res h o ho
    by_cases h1 : p.key = "nat"
    · by_cases hv : p.value = ""
      · simp only [VirtioNet.applyOptions, h1, hv, if_true, eq_self_iff_true, if_pos] at h
        rcases List.mem_cons.mp ho with rfl | ho2
        · exact Or.inl h1
        · exact ih _ _ h o ho2
      · simp [VirtioNet.applyOptions, h1, hv] at h
    · by_cases h2 : p.key = "mac"
      · rcases hm : parseMAC p.value with _ | m
        · simp [VirtioNet.applyOptions, h1, h2, hm] at h
        · simp only [VirtioNet.applyOptions, h1, h2, hm, if_true, if_false,
            eq_self_iff_true, if_pos, if_neg] at h
          rcases List.mem_cons.mp ho with rfl | ho2
          · exact Or.inr (Or.inl h2)
          · exact ih _ _ h o ho2
      · by_cases h3 : p.key = "fd"
        · rcases hat : atoiGo p.value with _ | n
          · simp [VirtioNet.applyOptions, h1, h2, h3, hat] at h
          · simp only [VirtioNet.applyOptions, h1, h2, h3, hat, if_true, if_false,
              eq_self_iff_true, if_pos, if_neg] at h
            rcases List.mem_cons.mp ho with rfl | ho2
            · exact Or.inr (Or.inr h3)
            · exact ih _ _ h o ho2
        · simp [VirtioNet.applyOptions, h1, h2, h3] at h

lemma rng_ok_nil : ∀ (opts : List option) (dev res : VirtioRng),
    VirtioRng.FromOptions dev opts = .ok res → opts = [] := by
  intro opts dev res h
  by_cases hl : opts.length = 0
  · exact List.length_eq_zero.mp hl
  · simp [VirtioRng.FromOptions, hl] at h

lemma blk_apply_spec : ∀ (opts : List option) (dev : VirtioBlk) (unhandled : List option),
    (VirtioBlk.applyOptions dev unhandled opts).2
        = unhandled ++ opts.filter (fun o => !(o.key == "deviceId"))
    ∧ (VirtioBlk.applyOptions dev unhandled opts).1.storageConfig = dev.storageConfig := by
  intro opts
  induction opts with
  | nil => intro dev unh; simp [VirtioBlk.applyOptions]
  | cons o rest ih =>
    intro dev unh
    by_cases hk : o.key = "deviceId"
    · simp [VirtioBlk.applyOptions, hk, List.filter_cons, ih]
    · simp [VirtioBlk.applyOptions, hk, List.filter_cons, ih]

lemma blk_ok_keys : ∀ (opts : List option) (dev res : VirtioBlk),
    VirtioBlk.FromOptions dev opts = .ok res →
    ∀ o ∈ opts, o.key = "deviceId" ∨ o.key = "path" := by
  intro opts dev res h o ho
  by_cases hk : o.key = "deviceId"
  · exact Or.inl hk
  · right
    have hmem : o ∈ (VirtioBlk.applyOptions dev [] opts).2 := by
      rw [(blk_apply_spec opts dev []).1]
      simp only [List.nil_append]
      exact List.mem_filter.mpr ⟨ho, by simp [hk]⟩
    rcases hs : StorageConfig.FromOptions (VirtioBlk.applyOptions dev [] opts).1.storageConfig
        (VirtioBlk.applyOptions dev [] opts).2 with e | sc
    · simp only [VirtioBlk.FromOptions, hs] at h
      exact Except.noConfusion h
    · exact storage_ok_keys _ _ _ hs o hmem

lemma usb_ok_keys : ∀ (opts : List option) (dev res : USBMassStorage),
    USBMassStorage.FromOptions dev opts = .ok res → ∀ o ∈ opts, o.key = "path" := by
  intro opts dev res h o ho
  rcases hs : StorageConfig.FromOptions dev.storageConfig opts with e | sc
  · simp only [USBMassStorage.FromOptions, hs] at h
    exact Except.noConfusion h
  · exact storage_ok_keys _ _ _ hs o ho

lemma device_ok_keys : ∀ (d : VirtioDevice) (opts : List option) (res : VirtioDevice),
    VirtioDevice.FromOptions d opts = .ok res → ∀ o ∈ opts, recognizedKey d o.key = true := by
  intro d opts res h o ho
  cases d with
  | blk dev =>
    rcases hb : VirtioBlk.FromOptions dev opts with e | r
    · simp [VirtioDevice.FromOptions, Except.map, hb] at h
    · rcases blk_ok_keys opts dev r hb o ho with h1 | h1 <;> simp [recognizedKey, h1]
  | fs dev =>
    rcases hb : VirtioFs.FromOptions dev opts with e | r
    · simp [VirtioDevice.FromOptions, Except.map, hb] at h
    · rcases fs_ok_keys opts dev r hb o ho with h1 | h1 <;> simp [recognizedKey, h1]
  | net dev =>
    rcases hb : VirtioNet.FromOptions dev opts with e | r
    · simp [VirtioDevice.FromOptions, Except.map, hb] at h
    · rcases ha : VirtioNet.applyOptions dev opts with e2 | d2
      · simp only [VirtioNet.FromOptions, ha] at hb
        exact Except.noConfusion hb
      · rcases net_apply_ok_keys opts dev d2 ha o ho with h1 | h1 | h1 <;>
          simp [recognizedKey, h1]
  | rng dev =>
    rcases hb : VirtioRng.FromOptions dev opts with e | r
    · simp [VirtioDevice.FromOptions, Except.map, hb] at h
    · have hnil := rng_ok_nil opts dev r hb
      subst hnil
      exact absurd ho (List.not_mem_nil o)
  | serialPort dev =>
    rcases hb : VirtioSerial.FromOptions dev opts with e | r
    · simp [VirtioDevice.FromOptions, Except.map, hb] at h
    · have h1 := serial_ok_keys opts dev r hb o ho
      simp [recognizedKey, h1]
  | vsock dev =>
    rcases hb : VirtioVsock.FromOptions dev opts with e | r
    · simp [VirtioDevice.FromOptions, Except.map, hb] at h
    · rcases vsock_apply_ok_keys opts { dev with listen := true } r hb o ho
        with h1 | h1 | h1 | h1 <;> simp [recognizedKey, h1]
  | usb dev =>
    rcases hb : USBMassStorage.FromOptions dev opts with e | r
    · simp [VirtioDevice.FromOptions, Except.map, hb] at h
    · have h1 := usb_ok_keys opts dev r hb o ho
      simp [recognizedKey, h1]

/-- Claim C5 counterexample: an option list containing the unrecognized key
`junk` does not fail with the unknown-option error, because the earlier
ill-formed `port=x` option fails first with the integer-parse error. -/
theorem earlier_parse_error_masks_unknown_key :
    deviceFromCmdLine "virtio-vsock,port=x,junk" = .error (.invalidNumber "x")
    ∧ VErr.invalidNumber "x" ≠ VErr.unknownOption "virtio-vsock" "junk" := by
  exact ⟨rfl, by decide⟩

/-- Claim C5 (amended): decode never succeeds on an option sequence containing
an unrecognized key; when the unrecognized key is reached first, decode fails
with the unknown-option error naming the device kind and the key (VirtioRng
instead rejects any non-empty sequence with its unknown-options error); an
earlier option whose value fails to parse reports that error instead. -/
theorem unknown_keys_rejected :
    (∀ (d : VirtioDevice) (opts : List option) (o : option), o ∈ opts →
        recognizedKey d o.key = false → isOkResult (VirtioDevice.FromOptions d opts) = false)
    ∧ (∀ (dev : VirtioSerial) (k v : String) (rest : List option), k ≠ "logFilePath" →
        VirtioSerial.FromOptions dev ({ key := k, value := v } :: rest)
          = .error (.unknownOption "virtio-serial" k))
    ∧ (∀ (dev : VirtioFs) (k v : String) (rest : List option),
        ¬(k = "sharedDir" ∨ k = "mountTag") →
        VirtioFs.FromOptions dev ({ key := k, value := v } :: rest)
          = .error (.unknownOption "virtio-fs" k))
    ∧ (∀ (dev : VirtioNet) (k v : String) (rest : List option),
        ¬(k = "nat" ∨ k = "mac" ∨ k = "fd") →
        VirtioNet.FromOptions dev ({ key := k, value := v } :: rest)
          = .error (.unknownOption "virtio-net" k))
    ∧ (∀ (dev : VirtioVsock) (k v : String) (rest : List option),
        ¬(k = "socketURL" ∨ k = "port" ∨ k = "listen" ∨ k = "connect") →
        VirtioVsock.FromOptions dev ({ key := k, value := v } :: rest)
          = .error (.unknownOption "virtio-vsock" k))
    ∧ (∀ (dev : VirtioBlk) (k v : String) (rest : List option),
        ¬(k = "deviceId" ∨ k = "path") →
        VirtioBlk.FromOptions dev ({ key := k, value := v } :: rest)
          = .error (.unknownOption dev.storageConfig.devName k))
    ∧ (∀ (dev : USBMassStorage) (k v : String) (rest : List option), k ≠ "path" →
        USBMassStorage.FromOptions dev ({ key := k, value := v } :: rest)
          = .error (.unknownOption dev.storageConfig.devName k))
    ∧ (∀ (dev : VirtioRng) (opts : List option), opts ≠ [] →
        VirtioRng.FromOptions dev opts = .error (.unknownOptions "virtio-rng" opts)) := by
  refine ⟨?_, ?_, ?_, ?_, ?_, ?_, ?_, ?_⟩
  · intro d opts o ho hfalse
    rcases hr : VirtioDevice.FromOptions d opts with e | res
    · rfl
    · have htrue := device_ok_keys d opts res hr o ho
      rw [hfalse] at htrue
      exact Bool.noConfusion htrue
  · intro dev k v rest hk
    simp [VirtioSerial.FromOptions, hk]
  · intro dev k v rest hk
    rw [not_or] at hk
    simp [VirtioFs.FromOptions, hk.1, hk.2]
  · intro dev k v rest hk
    simp only [not_or] at hk
    obtain ⟨h1, h2, h3⟩ := hk
    simp [VirtioNet.FromOptions, VirtioNet.applyOptions, h1, h2, h3]
  · intro dev k v rest hk
    simp only [not_or] at hk
    obtain ⟨h1, h2, h3, h4⟩ := hk
    simp [VirtioVsock.FromOptions, VirtioVsock.applyOptions, h1, h2, h3, h4]
  · intro dev k v rest hk
    rw [not_or] at hk
    obtain ⟨hid, hpath⟩ := hk
    have h1 : VirtioBlk.applyOptions dev [] ({ key := k, value := v } :: rest)
        = VirtioBlk.applyOptions dev [{ key := k, value := v }] rest := by
      simp [VirtioBlk.applyOptions, hid]
    obtain ⟨h2, h3⟩ := blk_apply_spec rest dev [{ key := k, value := v }]
    simp only [VirtioBlk.FromOptions, h1, h2, h3]
    simp [StorageConfig.FromOptions, hpath]
  · intro dev k v rest hk
    simp [USBMassStorage.FromOptions, StorageConfig.FromOptions, hk]
  · intro dev opts h
    rcases opts with _ | ⟨o, rest⟩
    · exact absurd rfl h
    · simp [VirtioRng.FromOptions]

/-- Claim C5 witness: unknown keys rejected at concrete inputs. -/
theorem unknown_keys_rejected_witness :
    isOkResult (VirtioDevice.FromOptions (.serialPort { logFile := "" })
        [{ key := "bogus", value := "" }]) = false
    ∧ VirtioSerial.FromOptions { logFile := "" } [{ key := "bogus", value := "1" }]
        = .error (.unknownOption "virtio-serial" "bogus")
    ∧ VirtioRng.FromOptions {} [{ key := "a", value := "" }]
        = .error (.unknownOptions "virtio-rng" [{ key := "a", value := "" }]) := by
  refine ⟨?_, ?_, ?_⟩
  · exact unknown_keys_rejected.1 (.serialPort { logFile := "" })
      [{ key := "bogus", value := "" }] { key := "bogus", value := "" }
      (List.mem_singleton.mpr rfl) rfl
  · exact unknown_keys_rejected.2.1 { logFile := "" } "bogus" "1" [] (by decide)
  · exact unknown_keys_rejected.2.2.2.2.2.2.2 {} [{ key := "a", value := "" }] (by simp)
